import Mathlib

/-!
Verification of the ASC codification extraction pipeline schema
(`llamaextract.py`) and of its batch orchestration contract.

The pydantic models are embedded as Lean structures; pydantic construction
(with its field validators and required-field checks) is embedded as a
`make` function per model returning `Except (List ValidationError) _`,
collecting one error per offending field, as pydantic does.  Python
`str.split('-')` is embedded directly; `str.isdigit` is embedded by the
code-point ranges of the characters it accepts.
-/

/-- Validation failure as surfaced by pydantic: the name of the offending
field together with the message raised by the field validator. -/
structure ValidationError where
  field : String
  msg : String
  deriving Repr, DecidableEq

/-- Test whether a construction attempt was accepted. -/
def isOkE : Except ε α → Bool
  | Except.ok _ => true
  | Except.error _ => false

/-- Names of the offending fields reported by a failed construction. -/
def errFields : Except (List ValidationError) α → List String
  | Except.ok _ => []
  | Except.error errs => errs.map (fun e => e.field)

/-- Enum `SourceAuthority` from the source. -/
inductive SourceAuthority where
  | fasb | sec | aicpa | other
  deriving Repr, DecidableEq

/-- Enum `RelationshipType` from the source. -/
inductive RelationshipType where
  | related | supersedes | amendedBy | clarifiedBy | modifiedBy
  deriving Repr, DecidableEq

/-- Enum `SectionType` from the source. -/
inductive SectionType where
  | overview | recognition | initialMeasurement | subsequentMeasurement
  | derecognition | presentation | disclosure | implementationGuidance
  | glossary | transition | effectiveDate
  deriving Repr, DecidableEq

/-- Enum `ParagraphType` from the source. -/
inductive ParagraphType where
  | principle | requirement | guidance | exception | definition
  | example | illustration
  deriving Repr, DecidableEq

/-- Enum `MandatoryLanguage` from the source. -/
inductive MandatoryLanguage where
  | shall | should | must | required | prohibited | may | might
  deriving Repr, DecidableEq

/-- Enum `RequirementType` from the source. -/
inductive RequirementType where
  | recognition | measurement | disclosure | presentation | transition | scope
  deriving Repr, DecidableEq

/-- Embedding of Python `datetime.date` values (year, month, day). -/
structure PyDate where
  year : Int
  month : Nat
  day : Nat
  deriving Repr, DecidableEq

/-- Embedding of Python `datetime.datetime` values. -/
structure PyDateTime where
  year : Int
  month : Nat
  day : Nat
  hour : Nat
  minute : Nat
  second : Nat
  deriving Repr, DecidableEq

/-- Model `JournalEntry` from the source: `account` is required, the other
three fields default to `None`. -/
structure JournalEntry where
  account : String
  debit : Option ℚ
  credit : Option ℚ
  description : Option String
  deriving Repr, DecidableEq

/-- Model `Requirement` from the source. -/
structure Requirement where
  requirement_text : String
  mandatory_language : List MandatoryLanguage
  conditions : List String
  exceptions : List String
  deriving Repr, DecidableEq

/-- Model `Example` from the source. -/
structure Example where
  example_id : String
  title : Option String
  scenario : String
  analysis : String
  journal_entries : List JournalEntry
  related_paragraphs : List String
  financial_statement_impact : Option String
  deriving Repr, DecidableEq

/-- Model `Paragraph` from the source. -/
structure Paragraph where
  paragraph_id : String
  text : String
  paragraph_type : ParagraphType
  key_terms : List String
  requirements : List Requirement
  conditions : List String
  cross_references : List String
  effective_date : Option PyDate
  deriving Repr, DecidableEq

/-- Model `SubSection` from the source. -/
structure SubSection where
  subsection_number : String
  subsection_title : Option String
  summary : Option String
  paragraphs : List Paragraph
  examples : List Example
  deriving Repr, DecidableEq

/-- Model `Section` from the source. -/
structure Section where
  section_number : String
  section_title : String
  section_type : SectionType
  summary : Option String
  subsections : List SubSection
  deriving Repr, DecidableEq

/-- Model `Overview` from the source. -/
structure Overview where
  general : Option String
  scope : Option String
  key_changes : List String
  objectives : List String
  core_principles : List String
  deriving Repr, DecidableEq

/-- Model `CodificationStructure` from the source: `overview` is optional
(defaults to `None`), `sections` is required. -/
structure CodificationStructure where
  overview : Option Overview
  sections : List Section
  deriving Repr, DecidableEq

/-- Model `CrossReference` from the source. -/
structure CrossReference where
  referenced_topic : String
  relationship_type : RelationshipType
  description : String
  specific_paragraphs : List String
  deriving Repr, DecidableEq

/-- Model `IndustryGuidance` from the source. -/
structure IndustryGuidance where
  industry : String
  industry_code : Option String
  specific_guidance : String
  affected_sections : List String
  deriving Repr, DecidableEq

/-- Model `ComplianceCheckpoint` from the source. -/
structure ComplianceCheckpoint where
  checkpoint_id : String
  requirement_type : RequirementType
  requirement_text : String
  assessment_criteria : List String
  common_violations : List String
  testing_procedures : List String
  documentation_requirements : List String
  risk_level : Option String
  related_paragraphs : List String
  deriving Repr, DecidableEq

/-- Model `DocumentMetadata` from the source. -/
structure DocumentMetadata where
  asc_topic : String
  topic_title : String
  version : String
  effective_date : PyDate
  last_updated : PyDateTime
  source_authority : SourceAuthority
  superseded_guidance : List String
  related_topics : List String
  transition_guidance : Option String
  deriving Repr, DecidableEq

/-- Model `ASCFilings` from the source.  Python `Dict[str, str]` is embedded
as an association list. -/
structure ASCFilings where
  document_metadata : DocumentMetadata
  codification_structure : CodificationStructure
  cross_references : List CrossReference
  industry_specific : List IndustryGuidance
  compliance_checkpoints : List ComplianceCheckpoint
  glossary_terms : List (String × String)
  implementation_guidance : Option String
  frequently_asked_questions : List (List (String × String))
  semantic_tags : List String
  complexity_score : Option Int
  deriving Repr, DecidableEq

/-- Embedding of Python `v.split('-')` on the character list. -/
def splitDashChars : List Char → List (List Char)
  | [] => [[]]
  | c :: rest =>
    if c = '-' then [] :: splitDashChars rest
    else
      match splitDashChars rest with
      | [] => [[c]]
      | h :: t => (c :: h) :: t

/-- Embedding of Python `v.split('-')` on strings. -/
def pySplitDash (s : String) : List String :=
  (splitDashChars s.data).map (fun cs => String.mk cs)

/-- Inclusive code-point ranges of the characters for which Python
`str.isdigit` is true: the Unicode characters of Numeric_Type Digit or
Decimal (Unicode 14.0, as shipped with CPython 3.11) — the decimal digits
of every script plus digit-valued characters such as superscripts. -/
def pyDigitRanges : List (Nat × Nat) :=
  [(48, 57), (178, 179), (185, 185), (1632, 1641), (1776, 1785),
   (1984, 1993), (2406, 2415), (2534, 2543), (2662, 2671), (2790, 2799),
   (2918, 2927), (3046, 3055), (3174, 3183), (3302, 3311), (3430, 3439),
   (3558, 3567), (3664, 3673), (3792, 3801), (3872, 3881), (4160, 4169),
   (4240, 4249), (4969, 4977), (6112, 6121), (6160, 6169), (6470, 6479),
   (6608, 6618), (6784, 6793), (6800, 6809), (6992, 7001), (7088, 7097),
   (7232, 7241), (7248, 7257), (8304, 8304), (8308, 8313), (8320, 8329),
   (9312, 9320), (9332, 9340), (9352, 9360), (9450, 9450), (9461, 9469),
   (9471, 9471), (10102, 10110), (10112, 10120), (10122, 10130),
   (42528, 42537), (43216, 43225), (43264, 43273), (43472, 43481),
   (43504, 43513), (43600, 43609), (44016, 44025), (65296, 65305),
   (66720, 66729), (68160, 68163), (68912, 68921), (69216, 69224),
   (69714, 69722), (69734, 69743), (69872, 69881), (69942, 69951),
   (70096, 70105), (70384, 70393), (70736, 70745), (70864, 70873),
   (71248, 71257), (71360, 71369), (71472, 71481), (71904, 71913),
   (72016, 72025), (72784, 72793), (73040, 73049), (73120, 73129),
   (92768, 92777), (92864, 92873), (93008, 93017), (120782, 120831),
   (123200, 123209), (123632, 123641), (125264, 125273), (127232, 127242),
   (130032, 130041)]

/-- Embedding of Python `str.isdigit` on one character. -/
def pyCharIsdigit (c : Char) : Bool :=
  pyDigitRanges.any (fun p => decide (p.1 ≤ c.toNat) && decide (c.toNat ≤ p.2))

/-- Embedding of Python `str.isdigit`: non-empty and every character a
digit character in Python's sense. -/
def pyIsdigit (s : String) : Bool :=
  !(s.data.isEmpty) && s.data.all (fun c => pyCharIsdigit c)

/-- The validator `JournalEntry.validate_amounts` from the source, applied
by pydantic to `debit` and to `credit` separately. -/
def validate_amounts (v : Option ℚ) : Except String (Option ℚ) :=
  match v with
  | none => Except.ok none
  | some x =>
    if x < 0 then Except.error ("Debit and credit amounts must be non-negative")
    else Except.ok (some x)

/-- The validator `Paragraph.validate_paragraph_id` from the source. -/
def validate_paragraph_id (v : String) : Except String String :=
  if (pySplitDash v).length < 3 then
    Except.error ("Paragraph ID must follow ASC format (e.g., 606-10-25-1)")
  else Except.ok v

/-- The validator `Section.validate_section_number` from the source. -/
def validate_section_number (v : String) : Except String String :=
  if !(pyIsdigit v) || v.length != 2 then
    Except.error ("Section number must be a two-digit string")
  else Except.ok v

/-- The validator `DocumentMetadata.validate_asc_topic` from the source. -/
def validate_asc_topic (v : String) : Except String String :=
  if !(pyIsdigit v) || v.length != 3 then
    Except.error ("ASC topic must be a three-digit string")
  else Except.ok v

/-- Run a field validator the way pydantic does: a raised `ValueError`
becomes a validation error tagged with the field name. -/
def runFieldValidator (field : String) (r : Except String α) : List ValidationError :=
  match r with
  | Except.ok _ => []
  | Except.error m => [⟨field, m⟩]

/-- Pydantic construction of `JournalEntry`.  The required `account` field
is passed as an `Option` to model its presence in the input payload;
`debit`, `credit` and `description` default to `None`.  All field errors
are collected, as pydantic does. -/
def JournalEntry.make (accountOpt : Option String) (debit credit : Option ℚ)
    (description : Option String) : Except (List ValidationError) JournalEntry :=
  match accountOpt with
  | none =>
    Except.error (⟨"account", "field required"⟩ ::
      (runFieldValidator ("debit") (validate_amounts debit) ++
       runFieldValidator ("credit") (validate_amounts credit)))
  | some account =>
    match runFieldValidator ("debit") (validate_amounts debit) ++
          runFieldValidator ("credit") (validate_amounts credit) with
    | [] => Except.ok ⟨account, debit, credit, description⟩
    | errs => Except.error errs

/-- Pydantic construction of `Paragraph`: runs `validate_paragraph_id`. -/
def Paragraph.make (paragraph_id text : String) (paragraph_type : ParagraphType)
    (key_terms : List String) (requirements : List Requirement)
    (conditions : List String) (cross_references : List String)
    (effective_date : Option PyDate) : Except (List ValidationError) Paragraph :=
  match runFieldValidator ("paragraph_id") (validate_paragraph_id paragraph_id) with
  | [] => Except.ok ⟨paragraph_id, text, paragraph_type, key_terms, requirements,
      conditions, cross_references, effective_date⟩
  | errs => Except.error errs

/-- Pydantic construction of `SubSection`: the model declares no validator,
so construction from typed fields stores them unchanged. -/
def SubSection.make (subsection_number : String) (subsection_title summary : Option String)
    (paragraphs : List Paragraph) (examples : List Example) : SubSection :=
  ⟨subsection_number, subsection_title, summary, paragraphs, examples⟩

/-- Pydantic construction of `Section`: runs `validate_section_number`. -/
def Section.make (section_number section_title : String) (section_type : SectionType)
    (summary : Option String) (subsections : List SubSection) :
    Except (List ValidationError) Section :=
  match runFieldValidator ("section_number") (validate_section_number section_number) with
  | [] => Except.ok ⟨section_number, section_title, section_type, summary, subsections⟩
  | errs => Except.error errs

/-- Pydantic construction of `CodificationStructure`: `sections` is a
required field (its presence in the payload is modelled by the `Option`),
`overview` defaults to `None`. -/
def CodificationStructure.make (overview : Option Overview)
    (sectionsOpt : Option (List Section)) :
    Except (List ValidationError) CodificationStructure :=
  match sectionsOpt with
  | none => Except.error [⟨"sections", "field required"⟩]
  | some sections => Except.ok ⟨overview, sections⟩

/-- Pydantic construction of `DocumentMetadata`: runs `validate_asc_topic`. -/
def DocumentMetadata.make (asc_topic topic_title version : String)
    (effective_date : PyDate) (last_updated : PyDateTime)
    (source_authority : SourceAuthority) (superseded_guidance related_topics : List String)
    (transition_guidance : Option String) : Except (List ValidationError) DocumentMetadata :=
  match runFieldValidator ("asc_topic") (validate_asc_topic asc_topic) with
  | [] => Except.ok ⟨asc_topic, topic_title, version, effective_date, last_updated,
      source_authority, superseded_guidance, related_topics, transition_guidance⟩
  | errs => Except.error errs

/-- Pydantic construction of `ASCFilings`: enforces the `Field(ge=1, le=10)`
bounds on `complexity_score`. -/
def ASCFilings.make (document_metadata : DocumentMetadata)
    (codification_structure : CodificationStructure)
    (cross_references : List CrossReference)
    (industry_specific : List IndustryGuidance)
    (compliance_checkpoints : List ComplianceCheckpoint)
    (glossary_terms : List (String × String))
    (implementation_guidance : Option String)
    (frequently_asked_questions : List (List (String × String)))
    (semantic_tags : List String) (complexity_score : Option Int) :
    Except (List ValidationError) ASCFilings :=
  match complexity_score with
  | none => Except.ok ⟨document_metadata, codification_structure, cross_references,
      industry_specific, compliance_checkpoints, glossary_terms, implementation_guidance,
      frequently_asked_questions, semantic_tags, none⟩
  | some x =>
    if x < 1 then
      Except.error [⟨"complexity_score", "ensure this value is greater than or equal to 1"⟩]
    else if 10 < x then
      Except.error [⟨"complexity_score", "ensure this value is less than or equal to 10"⟩]
    else Except.ok ⟨document_metadata, codification_structure, cross_references,
      industry_specific, compliance_checkpoints, glossary_terms, implementation_guidance,
      frequently_asked_questions, semantic_tags, some x⟩

/-- Attribute assignment on a constructed `Paragraph`.  No model in the
source sets `validate_assignment`, so pydantic v1 assignment runs no
validator: the field is simply replaced. -/
def Paragraph.set_paragraph_id (p : Paragraph) (v : String) : Paragraph :=
  ⟨v, p.text, p.paragraph_type, p.key_terms, p.requirements, p.conditions,
   p.cross_references, p.effective_date⟩

/-- Attribute assignment of `debit` on a constructed `JournalEntry`:
unvalidated, as pydantic v1 default assignment is. -/
def JournalEntry.set_debit (e : JournalEntry) (v : Option ℚ) : JournalEntry :=
  ⟨e.account, v, e.credit, e.description⟩

/-- Attribute assignment of `complexity_score` on a constructed
`ASCFilings`: unvalidated, as pydantic v1 default assignment is. -/
def ASCFilings.set_complexity_score (a : ASCFilings) (v : Option Int) : ASCFilings :=
  ⟨a.document_metadata, a.codification_structure, a.cross_references,
   a.industry_specific, a.compliance_checkpoints, a.glossary_terms,
   a.implementation_guidance, a.frequently_asked_questions, a.semantic_tags, v⟩

/-- External calls issued by the module at import time, in order:
`LlamaExtract()` (constructed with no credential argument) and
`extractor.create_agent(name=..., data_schema=ASCFilings)`. -/
inductive ExtCall where
  | llamaExtractInit
  | createAgent (agentName : String) (schemaName : String)
  deriving Repr, DecidableEq

/-- Observable startup state of the module: the value bound to
`LLAMA_CLOUD_API_KEY` and the sequence of external calls issued. -/
structure ProgramStartup where
  llamaCloudApiKey : Option String
  calls : List ExtCall
  deriving Repr, DecidableEq

/-- Startup dataflow of the module, from the source: `os.getenv("LLAMA_CLOUD")`
is bound to `LLAMA_CLOUD_API_KEY`; `LlamaExtract()` and
`create_agent` are called with no argument derived from that binding. -/
def startup (env : String → Option String) : ProgramStartup :=
  ⟨env ("LLAMA_CLOUD"),
   [ExtCall.llamaExtractInit, ExtCall.createAgent ("ASC Codification Agent") ("ASCFilings")]⟩

/-- Concrete environment binding "LLAMA_CLOUD" to one credential. -/
def envA : String → Option String :=
  fun k => if k = "LLAMA_CLOUD" then some ("credential-one") else none

/-- Concrete environment binding "LLAMA_CLOUD" to another credential. -/
def envB : String → Option String :=
  fun k => if k = "LLAMA_CLOUD" then some ("credential-two") else none

/-- Modelled from the spec: the batch orchestrator is not under `src/` (the
source file ends right after agent creation), so its batching is taken from
the spec's words — "partitions the input into consecutive batches of the
configured size".  Fuel-driven so that the recursion is structural. -/
def batchesFuel (B : Nat) : Nat → List α → List (List α)
  | 0, _ => []
  | _fuel+1, [] => []
  | fuel+1, x :: xs => (x :: xs).take B :: batchesFuel B fuel ((x :: xs).drop B)

/-- Modelled from the spec: partition of a document list into consecutive
batches of size `B` (the fuel `l.length` suffices whenever `0 < B`). -/
def batches (B : Nat) (l : List α) : List (List α) :=
  batchesFuel B l.length l

/-- Modelled from the spec: the events of one orchestrator run that the
claims observe — a submission attempt carrying its batch, or a wait. -/
inductive OrchestratorEvent where
  | submitAttempt (batch : List String)
  | interBatchWait
  deriving Repr, DecidableEq

/-- Modelled from the spec: absent rate-limiting every batch is submitted
exactly once, in list order, with the inter-batch delay before each next
batch. -/
def orchestrateNoThrottle (B : Nat) (docs : List String) : List OrchestratorEvent :=
  List.intersperse OrchestratorEvent.interBatchWait
    ((batches B docs).map OrchestratorEvent.submitAttempt)

/-- Select the batch of a submission-attempt event. -/
def eventBatch : OrchestratorEvent → Option (List String)
  | OrchestratorEvent.submitAttempt b => some b
  | OrchestratorEvent.interBatchWait => none

/-- The submission attempts issued during a run without rate-limiting. -/
def submittedBatches (B : Nat) (docs : List String) : List (List String) :=
  (orchestrateNoThrottle B docs).filterMap eventBatch

/-- Modelled from the spec: the three possible answers of the external
service to one submission call. -/
inductive SubmitResponse where
  | accepted
  | rateLimited
  | failed
  deriving Repr, DecidableEq

/-- Modelled from the spec: outcome of the retry-wrapped submission of one
batch: success recording how many backoff waits happened, abort of the run
when the retry ceiling is exhausted, abort on any other external error. -/
inductive SubmitOutcome where
  | succeeded (backoffWaits : Nat)
  | abortedRateLimit
  | abortedFailure
  deriving Repr, DecidableEq

/-- Modelled from the spec: retry-wrapped submission of one batch, missing
from `src/`.  `respond n` is the service's answer to the attempt made after
`n` backoff waits; on a rate-limit signal the orchestrator waits the backoff
delay and retries, up to the ceiling (the first argument of the recursion);
on any other error it aborts the run. -/
def submitWithRetry (respond : Nat → SubmitResponse) : Nat → Nat → SubmitOutcome
  | 0, _ => SubmitOutcome.abortedRateLimit
  | remaining+1, waits =>
    match respond waits with
    | SubmitResponse.accepted => SubmitOutcome.succeeded waits
    | SubmitResponse.rateLimited => submitWithRetry respond remaining (waits + 1)
    | SubmitResponse.failed => SubmitOutcome.abortedFailure

/-- Modelled from the spec: a service that returns a throttling signal on
exactly the first `K` calls and then accepts. -/
def throttleK (K : Nat) : Nat → SubmitResponse :=
  fun n => if n < K then SubmitResponse.rateLimited else SubmitResponse.accepted

lemma batchesFuel_nil (B fuel : Nat) : batchesFuel B fuel ([] : List α) = [] := by
  cases fuel <;> rfl

lemma batchesFuel_flatten {B : Nat} (hB : 0 < B) :
    ∀ (fuel : Nat) (l : List α), l.length ≤ fuel → (batchesFuel B fuel l).flatten = l := by
  intro fuel
  induction fuel with
  | zero =>
    intro l hl
    have : l = [] := List.eq_nil_of_length_eq_zero (Nat.le_zero.mp hl)
    subst this
    rfl
  | succ n ih =>
    intro l hl
    cases l with
    | nil => rfl
    | cons x xs =>
      have hdrop : ((x :: xs).drop B).length ≤ n := by
        simp only [List.length_drop, List.length_cons]
        simp only [List.length_cons] at hl
        omega
      simp only [batchesFuel, List.flatten_cons, ih _ hdrop]
      exact List.take_append_drop B (x :: xs)

lemma ceil_div_step {B m : Nat} (hB : 0 < B) (hm : 0 < m) :
    (m - B + B - 1) / B + 1 = (m + B - 1) / B := by
  rw [show m + B - 1 = (m - 1) + B by omega, Nat.add_div_right _ hB]
  by_cases hBm : B ≤ m
  · rw [show m - B + B - 1 = m - 1 by omega]
  · rw [show m - B + B - 1 = B - 1 by omega, Nat.div_eq_of_lt (by omega),
        Nat.div_eq_of_lt (by omega : m - 1 < B)]

lemma batchesFuel_length {B : Nat} (hB : 0 < B) :
    ∀ (fuel : Nat) (l : List α), l.length ≤ fuel →
      (batchesFuel B fuel l).length = (l.length + B - 1) / B := by
  intro fuel
  induction fuel with
  | zero =>
    intro l hl
    have : l = [] := List.eq_nil_of_length_eq_zero (Nat.le_zero.mp hl)
    subst this
    simp [batchesFuel, Nat.div_eq_of_lt (by omega : B - 1 < B)]
  | succ n ih =>
    intro l hl
    cases l with
    | nil =>
      simp [batchesFuel, Nat.div_eq_of_lt (by omega : B - 1 < B)]
    | cons x xs =>
      have hdrop : ((x :: xs).drop B).length ≤ n := by
        simp only [List.length_drop, List.length_cons]
        simp only [List.length_cons] at hl
        omega
      simp only [batchesFuel, List.length_cons, ih _ hdrop, List.length_drop,
        List.length_cons]
      exact ceil_div_step hB (by omega)

lemma batchesFuel_sizes {B : Nat} :
    ∀ (fuel : Nat) (l : List α), ∀ b ∈ batchesFuel B fuel l, b.length ≤ B := by
  intro fuel
  induction fuel with
  | zero => intro l b hb; simp [batchesFuel] at hb
  | succ n ih =>
    intro l b hb
    cases l with
    | nil => simp [batchesFuel] at hb
    | cons x xs =>
      simp only [batchesFuel, List.mem_cons] at hb
      rcases hb with h | h
      · subst h
        rw [List.length_take]
        exact Nat.min_le_left _ _
      · exact ih _ _ h

lemma batchesFuel_last {B : Nat} (hB : 0 < B) :
    ∀ (fuel : Nat) (l : List α), l ≠ [] → l.length ≤ fuel →
      ((batchesFuel B fuel l).getLast?).map List.length =
        some (if l.length % B = 0 then B else l.length % B) := by
  intro fuel
  induction fuel with
  | zero =>
    intro l hne hl
    exact absurd (List.eq_nil_of_length_eq_zero (Nat.le_zero.mp hl)) hne
  | succ n ih =>
    intro l hne hl
    cases l with
    | nil => exact absurd rfl hne
    | cons x xs =>
      by_cases hd : (x :: xs).drop B = []
      · have hlenB : (x :: xs).length ≤ B := by
          have := congrArg List.length hd
          simp only [List.length_drop, List.length_nil] at this
          omega
        have htake : (x :: xs).take B = x :: xs := List.take_of_length_le hlenB
        simp only [batchesFuel, hd, batchesFuel_nil, htake, List.getLast?_singleton]
        have hpos : 0 < (x :: xs).length := by simp
        rcases Nat.lt_or_ge (x :: xs).length B with hlt | hge
        · rw [Nat.mod_eq_of_lt hlt, if_neg (by omega)]
          rfl
        · have heq : (x :: xs).length = B := le_antisymm hlenB hge
          rw [heq, Nat.mod_self, if_pos rfl]
          rw [← heq]
          rfl
      · have hdrop : ((x :: xs).drop B).length ≤ n := by
          simp only [List.length_drop, List.length_cons]
          simp only [List.length_cons] at hl
          omega
        have hrec := ih ((x :: xs).drop B) hd hdrop
        have hBle : B ≤ (x :: xs).length := by
          by_contra hcon
          exact hd (List.drop_eq_nil_of_le (by omega))
        cases hbf : batchesFuel B n ((x :: xs).drop B) with
        | nil =>
          rw [hbf] at hrec
          simp at hrec
        | cons b t =>
          simp only [batchesFuel, hbf, List.getLast?_cons_cons]
          rw [← hbf, hrec, List.length_drop, ← Nat.mod_eq_sub_mod hBle]

lemma filterMap_eventBatch_intersperse :
    ∀ L : List (List String),
      ((L.map OrchestratorEvent.submitAttempt).intersperse
          OrchestratorEvent.interBatchWait).filterMap eventBatch = L := by
  intro L
  induction L with
  | nil => rfl
  | cons a t ih =>
    cases t with
    | nil => rfl
    | cons b t2 =>
      simp only [List.map_cons, List.intersperse_cons₂, List.filterMap_cons] at *
      simpa [eventBatch] using ih

lemma submittedBatches_eq (B : Nat) (docs : List String) :
    submittedBatches B docs = batches B docs := by
  unfold submittedBatches orchestrateNoThrottle
  exact filterMap_eventBatch_intersperse (batches B docs)

lemma submitWithRetry_throttleK (K : Nat) :
    ∀ (remaining waits : Nat), waits ≤ K →
      submitWithRetry (throttleK K) remaining waits =
        if K - waits < remaining then SubmitOutcome.succeeded K
        else SubmitOutcome.abortedRateLimit := by
  intro remaining
  induction remaining with
  | zero =>
    intro waits hw
    simp [submitWithRetry]
  | succ r ih =>
    intro waits hw
    by_cases hlt : waits < K
    · have : throttleK K waits = SubmitResponse.rateLimited := by
        simp [throttleK, hlt]
      simp only [submitWithRetry, this, ih (waits + 1) (by omega)]
      by_cases h2 : K - (waits + 1) < r
      · rw [if_pos h2, if_pos (by omega)]
      · rw [if_neg h2, if_neg (by omega)]
    · have hK : waits = K := by omega
      have : throttleK K waits = SubmitResponse.accepted := by
        simp [throttleK, hlt]
      simp only [submitWithRetry, this]
      rw [if_pos (by omega), hK]

lemma journal_make_isOk (acc : String) (d c : Option ℚ) (desc : Option String) :
    isOkE (JournalEntry.make (some acc) d c desc) = true ↔
      ((∀ x, d = some x → 0 ≤ x) ∧ (∀ x, c = some x → 0 ≤ x)) := by
  unfold JournalEntry.make validate_amounts runFieldValidator
  cases d with
  | none =>
    cases c with
    | none => simp [isOkE]
    | some y =>
      by_cases hy : y < 0
      · simp only [if_pos hy]
        simp [isOkE]
        exact hy
      · simp only [if_neg hy]
        simp [isOkE]
        exact not_lt.mp hy
  | some z =>
    by_cases hz : z < 0
    · simp only [if_pos hz]
      cases c with
      | none =>
        simp [isOkE]
        exact hz
      | some y =>
        by_cases hy : y < 0
        · simp only [if_pos hy]
          simp [isOkE]
          intro h
          exact absurd h (not_le.mpr hz)
        · simp only [if_neg hy]
          simp [isOkE]
          intro h
          exact absurd h (not_le.mpr hz)
    · simp only [if_neg hz]
      cases c with
      | none =>
        simp [isOkE]
        exact not_lt.mp hz
      | some y =>
        by_cases hy : y < 0
        · simp only [if_pos hy]
          simp [isOkE]
          intro h
          exact hy
        · simp only [if_neg hy]
          simp [isOkE]
          exact ⟨not_lt.mp hz, not_lt.mp hy⟩

lemma paragraph_make_isOk (pid t : String) (pt : ParagraphType) (kt : List String)
    (rq : List Requirement) (cd cr : List String) (ed : Option PyDate) :
    isOkE (Paragraph.make pid t pt kt rq cd cr ed) = true ↔
      3 ≤ (pySplitDash pid).length := by
  unfold Paragraph.make validate_paragraph_id runFieldValidator
  by_cases h : (pySplitDash pid).length < 3
  · simp only [if_pos h]
    simp [isOkE]
    omega
  · simp only [if_neg h]
    simp [isOkE]
    omega

lemma digit_cond (num : String) (k : Nat) (hk : 0 < k) :
    (!(pyIsdigit num) || num.length != k) = false ↔
      (num.length = k ∧ ∀ ch ∈ num.data, pyCharIsdigit ch = true) := by
  simp [pyIsdigit, List.isEmpty_iff, List.all_eq_true]
  constructor
  · rintro ⟨⟨hne, hall⟩, hlen⟩
    exact ⟨hlen, hall⟩
  · rintro ⟨hlen, hall⟩
    refine ⟨⟨?_, hall⟩, hlen⟩
    intro h
    rw [← String.length_data, h] at hlen
    simp at hlen
    omega

lemma section_make_isOk (num title : String) (ty : SectionType) (summ : Option String)
    (subs : List SubSection) :
    isOkE (Section.make num title ty summ subs) = true ↔
      (num.length = 2 ∧ ∀ ch ∈ num.data, pyCharIsdigit ch = true) := by
  have hch := digit_cond num 2 (by omega)
  unfold Section.make validate_section_number runFieldValidator
  cases hcond : (!(pyIsdigit num) || num.length != 2) with
  | false =>
    rw [if_neg (by simp)]
    simp only [isOkE, true_iff]
    exact hch.mp hcond
  | true =>
    rw [if_pos rfl]
    constructor
    · intro hok
      exact absurd hok (by simp [isOkE])
    · intro hP
      exact absurd (hch.mpr hP) (by rw [hcond]; simp)

lemma section_make_err (num title : String) (ty : SectionType) (summ : Option String)
    (subs : List SubSection) :
    isOkE (Section.make num title ty summ subs) = false →
      errFields (Section.make num title ty summ subs) = ["section_number"] := by
  unfold Section.make validate_section_number runFieldValidator
  cases hcond : (!(pyIsdigit num) || num.length != 2) with
  | false =>
    rw [if_neg (by simp)]
    intro h
    exact absurd h (by simp [isOkE])
  | true =>
    rw [if_pos rfl]
    intro _
    rfl

lemma docmeta_make_isOk (topic tt ver : String) (ed : PyDate) (lu : PyDateTime)
    (sa : SourceAuthority) (sg rt : List String) (tg : Option String) :
    isOkE (DocumentMetadata.make topic tt ver ed lu sa sg rt tg) = true ↔
      (topic.length = 3 ∧ ∀ ch ∈ topic.data, pyCharIsdigit ch = true) := by
  have hch := digit_cond topic 3 (by omega)
  unfold DocumentMetadata.make validate_asc_topic runFieldValidator
  cases hcond : (!(pyIsdigit topic) || topic.length != 3) with
  | false =>
    rw [if_neg (by simp)]
    simp only [isOkE, true_iff]
    exact hch.mp hcond
  | true =>
    rw [if_pos rfl]
    constructor
    · intro hok
      exact absurd hok (by simp [isOkE])
    · intro hP
      exact absurd (hch.mpr hP) (by rw [hcond]; simp)

lemma docmeta_make_err (topic tt ver : String) (ed : PyDate) (lu : PyDateTime)
    (sa : SourceAuthority) (sg rt : List String) (tg : Option String) :
    isOkE (DocumentMetadata.make topic tt ver ed lu sa sg rt tg) = false →
      errFields (DocumentMetadata.make topic tt ver ed lu sa sg rt tg) = ["asc_topic"] := by
  unfold DocumentMetadata.make validate_asc_topic runFieldValidator
  cases hcond : (!(pyIsdigit topic) || topic.length != 3) with
  | false =>
    rw [if_neg (by simp)]
    intro h
    exact absurd h (by simp [isOkE])
  | true =>
    rw [if_pos rfl]
    intro _
    rfl

lemma asc_make_isOk (md : DocumentMetadata) (cs : CodificationStructure)
    (crs : List CrossReference) (ind : List IndustryGuidance)
    (cc : List ComplianceCheckpoint) (gt : List (String × String))
    (ig : Option String) (faq : List (List (String × String)))
    (st : List String) (x : Int) :
    isOkE (ASCFilings.make md cs crs ind cc gt ig faq st (some x)) = true ↔
      (1 ≤ x ∧ x ≤ 10) := by
  simp only [ASCFilings.make]
  by_cases h1 : x < 1
  · rw [if_pos h1]
    simp [isOkE]
    omega
  · rw [if_neg h1]
    by_cases h2 : 10 < x
    · rw [if_pos h2]
      simp [isOkE]
      omega
    · rw [if_neg h2]
      simp [isOkE]
      omega

lemma paragraph_make_err (pid t : String) (pt : ParagraphType) (kt : List String)
    (rq : List Requirement) (cd cr : List String) (ed : Option PyDate)
    (h : (pySplitDash pid).length < 3) :
    errFields (Paragraph.make pid t pt kt rq cd cr ed) = ["paragraph_id"] := by
  unfold Paragraph.make validate_paragraph_id runFieldValidator
  rw [if_pos h]
  rfl

lemma validate_amounts_some (x : ℚ) :
    validate_amounts (some x) =
      if x < 0 then Except.error ("Debit and credit amounts must be non-negative")
      else Except.ok (some x) := rfl

lemma validate_amounts_neg (x : ℚ) (hx : x < 0) :
    validate_amounts (some x) =
      Except.error ("Debit and credit amounts must be non-negative") := by
  rw [validate_amounts_some, if_pos hx]

lemma validate_amounts_nonneg (x : ℚ) (hx : ¬x < 0) :
    validate_amounts (some x) = Except.ok (some x) := by
  rw [validate_amounts_some, if_neg hx]

lemma journal_debit_err (acc : String) (c : Option ℚ) (desc : Option String) (x : ℚ)
    (hx : x < 0) :
    ("debit" : String) ∈ errFields (JournalEntry.make (some acc) (some x) c desc) := by
  unfold JournalEntry.make
  rw [validate_amounts_neg x hx]
  cases c with
  | none => simp [validate_amounts, runFieldValidator, errFields]
  | some y =>
    by_cases hy : y < 0
    · rw [validate_amounts_neg y hy]
      simp [runFieldValidator, errFields]
    · rw [validate_amounts_nonneg y hy]
      simp [runFieldValidator, errFields]

lemma journal_credit_err (acc : String) (d : Option ℚ) (desc : Option String) (x : ℚ)
    (hx : x < 0) :
    ("credit" : String) ∈ errFields (JournalEntry.make (some acc) d (some x) desc) := by
  unfold JournalEntry.make
  rw [validate_amounts_neg x hx]
  cases d with
  | none => simp [validate_amounts, runFieldValidator, errFields]
  | some y =>
    by_cases hy : y < 0
    · rw [validate_amounts_neg y hy]
      simp [runFieldValidator, errFields]
    · rw [validate_amounts_nonneg y hy]
      simp [runFieldValidator, errFields]

/-- C1 (counterexample): the claim says a `paragraph_id` is accepted only
when it has exactly four dash-delimited segments; the code accepts
`"606-10-25"`, which has three segments, so the claim as stated is false. -/
theorem C1_counterexample :
    (pySplitDash ("606-10-25")).length = 3 ∧
    isOkE (Paragraph.make ("606-10-25") ("t") ParagraphType.principle [] [] [] [] none)
      = true := by
  exact ⟨rfl, rfl⟩

/-- C1 (amended): a `Paragraph` construction is accepted iff its
`paragraph_id` has at least three dash-delimited segments; with fewer than
three (e.g. only two) it fails with a validation error naming
`paragraph_id`. -/
theorem C1_amended (pid t : String) (pt : ParagraphType) (kt : List String)
    (rq : List Requirement) (cd cr : List String) (ed : Option PyDate) :
    (isOkE (Paragraph.make pid t pt kt rq cd cr ed) = true ↔
      3 ≤ (pySplitDash pid).length) ∧
    ((pySplitDash pid).length < 3 →
      errFields (Paragraph.make pid t pt kt rq cd cr ed) = ["paragraph_id"]) :=
  ⟨paragraph_make_isOk pid t pt kt rq cd cr ed,
   fun h => paragraph_make_err pid t pt kt rq cd cr ed h⟩

/-- C1 (witness): the amended theorem applied to the two-segment identifier
`"606-10"`. -/
theorem C1_witness :
    errFields (Paragraph.make ("606-10") ("t") ParagraphType.principle [] [] [] [] none)
      = ["paragraph_id"] :=
  (C1_amended ("606-10") ("t") ParagraphType.principle [] [] [] [] none).2 (by decide)

/-- C2: a `JournalEntry` construction is accepted by `validate_amounts`
iff every provided debit and credit amount is non-negative (zero included);
a negative debit reports the field `debit`, a negative credit the field
`credit`. -/
theorem C2_journal_amounts (acc : String) (d c : Option ℚ) (desc : Option String) :
    (isOkE (JournalEntry.make (some acc) d c desc) = true ↔
      ((∀ x, d = some x → 0 ≤ x) ∧ (∀ x, c = some x → 0 ≤ x))) ∧
    (∀ x, d = some x → x < 0 →
      ("debit" : String) ∈ errFields (JournalEntry.make (some acc) d c desc)) ∧
    (∀ x, c = some x → x < 0 →
      ("credit" : String) ∈ errFields (JournalEntry.make (some acc) d c desc)) := by
  refine ⟨journal_make_isOk acc d c desc, ?_, ?_⟩
  · intro x hd hx
    subst hd
    exact journal_debit_err acc c desc x hx
  · intro x hc hx
    subst hc
    exact journal_credit_err acc d desc x hx

/-- C2 (witness): a negative debit of −1 is rejected naming `debit`, a
negative credit of −2 is rejected naming `credit`, and zero amounts are
accepted. -/
theorem C2_witness :
    ("debit" : String) ∈ errFields (JournalEntry.make (some ("Cash")) (some (-1 : ℚ)) none none) ∧
    ("credit" : String) ∈ errFields (JournalEntry.make (some ("Cash")) none (some (-2 : ℚ)) none) ∧
    isOkE (JournalEntry.make (some ("Cash")) (some (0 : ℚ)) (some (0 : ℚ)) none) = true :=
  ⟨(C2_journal_amounts ("Cash") (some (-1)) none none).2.1 (-1) rfl (by norm_num),
   (C2_journal_amounts ("Cash") none (some (-2)) none).2.2 (-2) rfl (by norm_num),
   (C2_journal_amounts ("Cash") (some 0) (some 0) none).1.mpr (by simp)⟩

/-- C3: for every document list and positive batch size, absent
rate-limiting the orchestrator issues exactly ceil(N/B) submission attempts
(here written `(N + B - 1) / B`), the attempted batches concatenate back to
the input (consecutive partition), each batch has size at most `B`, and the
last batch has size `N mod B`, or `B` when `N mod B = 0`. -/
theorem C3_batching (B : Nat) (docs : List String) (hB : 0 < B) :
    (submittedBatches B docs).length = (docs.length + B - 1) / B ∧
    (submittedBatches B docs).flatten = docs ∧
    (∀ b ∈ submittedBatches B docs, b.length ≤ B) ∧
    (docs ≠ [] →
      ((submittedBatches B docs).getLast?).map List.length =
        some (if docs.length % B = 0 then B else docs.length % B)) := by
  rw [submittedBatches_eq]
  unfold batches
  exact ⟨batchesFuel_length hB docs.length docs le_rfl,
    batchesFuel_flatten hB docs.length docs le_rfl,
    batchesFuel_sizes docs.length docs,
    fun hne => batchesFuel_last hB docs.length docs hne le_rfl⟩

/-- C3 (witness): the spec's own scenario, seven documents with batch size
five: two submission attempts, sizes five and two. -/
theorem C3_witness :
    (submittedBatches 5 ["a", "b", "c", "d", "e", "f", "g"]).length = 2 ∧
    (submittedBatches 5 ["a", "b", "c", "d", "e", "f", "g"]).flatten
      = ["a", "b", "c", "d", "e", "f", "g"] ∧
    (["f", "g"] : List String).length ≤ 5 ∧
    ((submittedBatches 5 ["a", "b", "c", "d", "e", "f", "g"]).getLast?).map List.length
      = some 2 := by
  have h := C3_batching 5 ["a", "b", "c", "d", "e", "f", "g"] (by decide)
  refine ⟨?_, h.2.1, h.2.2.1 ["f", "g"] (by decide), ?_⟩
  · rw [h.1]
    decide
  · rw [h.2.2.2 (by decide)]
    decide

/-- C4: when the service throttles a submission exactly `K` times and then
accepts, a ceiling above `K` lets the batch succeed after exactly `K`
backoff waits, while `K` at or above the ceiling aborts the run once the
ceiling is reached. -/
theorem C4_throttling (ceiling K : Nat) :
    (K < ceiling →
      submitWithRetry (throttleK K) ceiling 0 = SubmitOutcome.succeeded K) ∧
    (ceiling ≤ K →
      submitWithRetry (throttleK K) ceiling 0 = SubmitOutcome.abortedRateLimit) := by
  have h := submitWithRetry_throttleK K ceiling 0 (Nat.zero_le K)
  constructor
  · intro hlt
    rw [h, if_pos (by omega)]
  · intro hge
    rw [h, if_neg (by omega)]

/-- C4 (witness): with a ceiling of three attempts, two throttles then
success succeeds after two backoff waits, and five throttles abort. -/
theorem C4_witness :
    submitWithRetry (throttleK 2) 3 0 = SubmitOutcome.succeeded 2 ∧
    submitWithRetry (throttleK 5) 3 0 = SubmitOutcome.abortedRateLimit :=
  ⟨(C4_throttling 3 2).1 (by omega), (C4_throttling 3 5).2 (by omega)⟩

/-- C5 (counterexample): two runs whose environments differ only in the
credential value read at startup bind different `LLAMA_CLOUD_API_KEY`
values yet issue exactly the same external calls, so the calls do not
depend on the credential value read from the environment. -/
theorem C5_counterexample :
    (startup envA).llamaCloudApiKey ≠ (startup envB).llamaCloudApiKey ∧
    (startup envA).calls = (startup envB).calls :=
  ⟨by decide, rfl⟩

/-- C5 (amended): the program reads the credential value from the
environment at startup (binding it to `LLAMA_CLOUD_API_KEY`), but that
value is never passed to the external extraction service: the external
calls issued are identical for every environment. -/
theorem C5_amended (env envAlt : String → Option String) :
    (startup env).llamaCloudApiKey = env ("LLAMA_CLOUD") ∧
    (startup env).calls = (startup envAlt).calls :=
  ⟨rfl, rfl⟩

/-- C6: the declared shape constraints (paragraph-identifier format,
non-negative amounts, complexity-score range) are enforced at construction
of the corresponding model value, and field assignment after construction
runs no validator: the assigned value is installed unconditionally. -/
theorem C6_construction_only
    (pid t : String) (pt : ParagraphType) (kt : List String)
    (rq : List Requirement) (cd cr : List String) (ed : Option PyDate)
    (acc : String) (d c : Option ℚ) (desc : Option String)
    (md : DocumentMetadata) (cs : CodificationStructure)
    (crs : List CrossReference) (ind : List IndustryGuidance)
    (cc : List ComplianceCheckpoint) (gt : List (String × String))
    (ig : Option String) (faq : List (List (String × String)))
    (st : List String) (x : Int)
    (p : Paragraph) (v : String) (e : JournalEntry) (dv : Option ℚ)
    (a : ASCFilings) (xv : Option Int) :
    (isOkE (Paragraph.make pid t pt kt rq cd cr ed) = true ↔
      3 ≤ (pySplitDash pid).length) ∧
    (isOkE (JournalEntry.make (some acc) d c desc) = true ↔
      ((∀ y, d = some y → 0 ≤ y) ∧ (∀ y, c = some y → 0 ≤ y))) ∧
    (isOkE (ASCFilings.make md cs crs ind cc gt ig faq st (some x)) = true ↔
      (1 ≤ x ∧ x ≤ 10)) ∧
    (p.set_paragraph_id v).paragraph_id = v ∧
    (e.set_debit dv).debit = dv ∧
    (a.set_complexity_score xv).complexity_score = xv :=
  ⟨paragraph_make_isOk pid t pt kt rq cd cr ed,
   journal_make_isOk acc d c desc,
   asc_make_isOk md cs crs ind cc gt ig faq st x,
   rfl, rfl, rfl⟩

/-- C7: an `ASCFilings` construction with a provided `complexity_score` is
accepted iff the score lies between 1 and 10 inclusive; any value outside
that range makes construction fail. -/
theorem C7_complexity_score (md : DocumentMetadata) (cs : CodificationStructure)
    (crs : List CrossReference) (ind : List IndustryGuidance)
    (cc : List ComplianceCheckpoint) (gt : List (String × String))
    (ig : Option String) (faq : List (List (String × String)))
    (st : List String) (x : Int) :
    isOkE (ASCFilings.make md cs crs ind cc gt ig faq st (some x)) = true ↔
      (1 ≤ x ∧ x ≤ 10) :=
  asc_make_isOk md cs crs ind cc gt ig faq st x

/-- C8 (counterexample): the claim says a section number is accepted only
when it is a string of two decimal digits, and likewise `asc_topic` for
three; but Python `str.isdigit` also accepts digit-valued characters
outside the decimal digits, so the superscript string `"¹¹"` is accepted
as a section number and the Arabic-Indic string `"٢٣٤"` as a topic code,
though neither consists of decimal digits. -/
theorem C8_counterexample :
    isOkE (Section.make ("¹¹") ("T") SectionType.overview none []) = true ∧
    ¬(∀ ch ∈ ("¹¹" : String).data, ch.isDigit = true) ∧
    isOkE (DocumentMetadata.make ("٢٣٤") ("T") ("v") ⟨2020, 1, 1⟩
      ⟨2020, 1, 1, 0, 0, 0⟩ SourceAuthority.fasb [] [] none) = true ∧
    ¬(∀ ch ∈ ("٢٣٤" : String).data, ch.isDigit = true) := by
  refine ⟨by decide, by decide, by decide, by decide⟩

/-- C8 (amended): a `Section` construction is accepted iff `section_number`
is a string of exactly two characters that Python `str.isdigit` counts as
digits (the Unicode digit characters, a strict superset of the decimal
digits 0-9), otherwise it fails naming `section_number`; a
`DocumentMetadata` construction is accepted iff `asc_topic` is a string of
exactly three such digit characters, otherwise it fails naming
`asc_topic`. -/
theorem C8_digit_formats (num title : String) (ty : SectionType)
    (summ : Option String) (subs : List SubSection)
    (topic tt ver : String) (ed : PyDate) (lu : PyDateTime)
    (sa : SourceAuthority) (sg rt : List String) (tg : Option String) :
    (isOkE (Section.make num title ty summ subs) = true ↔
      (num.length = 2 ∧ ∀ ch ∈ num.data, pyCharIsdigit ch = true)) ∧
    (isOkE (Section.make num title ty summ subs) = false →
      errFields (Section.make num title ty summ subs) = ["section_number"]) ∧
    (isOkE (DocumentMetadata.make topic tt ver ed lu sa sg rt tg) = true ↔
      (topic.length = 3 ∧ ∀ ch ∈ topic.data, pyCharIsdigit ch = true)) ∧
    (isOkE (DocumentMetadata.make topic tt ver ed lu sa sg rt tg) = false →
      errFields (DocumentMetadata.make topic tt ver ed lu sa sg rt tg) = ["asc_topic"]) :=
  ⟨section_make_isOk num title ty summ subs,
   section_make_err num title ty summ subs,
   docmeta_make_isOk topic tt ver ed lu sa sg rt tg,
   docmeta_make_err topic tt ver ed lu sa sg rt tg⟩

/-- C8 (witness): the one-digit section number `"1"` is rejected naming
`section_number`; the two-digit topic `"60"` is rejected naming
`asc_topic`. -/
theorem C8_witness :
    errFields (Section.make ("1") ("T") SectionType.overview none []) = ["section_number"] ∧
    errFields (DocumentMetadata.make ("60") ("T") ("v") ⟨2020, 1, 1⟩ ⟨2020, 1, 1, 0, 0, 0⟩
      SourceAuthority.fasb [] [] none) = ["asc_topic"] := by
  have h := C8_digit_formats ("1") ("T") SectionType.overview none []
    ("60") ("T") ("v") ⟨2020, 1, 1⟩ ⟨2020, 1, 1, 0, 0, 0⟩ SourceAuthority.fasb [] [] none
  exact ⟨h.2.1 (by decide), h.2.2.2 (by decide)⟩

/-- C9: a `CodificationStructure` construction without the `sections`
field fails (the field is required), construction with `overview` absent
and any supplied `sections` succeeds and stores the sections in the order
given; a `SubSection` stores its paragraphs in the order given. -/
theorem C9_structure (ov : Option Overview) (secs : List Section)
    (sn : String) (stl sm : Option String) (ps : List Paragraph) (ex : List Example) :
    CodificationStructure.make ov none
      = Except.error [⟨"sections", "field required"⟩] ∧
    CodificationStructure.make ov (some secs) = Except.ok ⟨ov, secs⟩ ∧
    (SubSection.make sn stl sm ps ex).paragraphs = ps :=
  ⟨rfl, rfl, rfl⟩

/-- C10: a `JournalEntry` can be constructed with both `debit` and `credit`
absent; the account name alone is required (a missing account is the only
reported error), and `validate_amounts` is skipped for absent amounts. -/
theorem C10_optional_amounts (acc : String) (desc : Option String) :
    JournalEntry.make (some acc) none none desc = Except.ok ⟨acc, none, none, desc⟩ ∧
    errFields (JournalEntry.make none none none none) = ["account"] ∧
    (∀ f : String, runFieldValidator f (validate_amounts none) = []) :=
  ⟨rfl, rfl, fun _ => rfl⟩
